import Mathlib

/-!
Shallow embedding of the points/redemption core of the `loyalty_program`
Node.js backend, together with proofs checking the natural-language
specification against the code.

Conventions of the embedding:
* JS `Date` instants are integers (milliseconds since the epoch).
* Mongo ObjectIds are natural numbers.
* Fallible JS code is embedded with `Option`/`Except`.
* Each definition is translated from the named source function; comments
  cite the source file.
-/

namespace Loyalty

/-- Redemption status enum, from `models/Redemption.js`:
`enum: ['pending', 'confirmed', 'used', 'expired', 'cancelled']`. -/
inductive RStatus where
  | pending | confirmed | used | expired | cancelled
deriving DecidableEq, Repr

/-! ## OTP engine (`models/Customer.js`, i.e. `src/unnamed/part_000`) -/

/-- The volatile `otp` sub-record `{code, expiresAt, attempts}` on a Customer. -/
structure OtpRec where
  code : String
  expiresAt : Int
  attempts : Nat
deriving DecidableEq, Repr

/-- The slice of a Customer document that `verifyOTP` reads and writes.
`otp = none` models the sub-record being absent (`this.otp` undefined). -/
structure CustomerOtpState where
  otp : Option OtpRec
  isPhoneVerified : Bool
deriving DecidableEq, Repr

/-- Outcome of `customerSchema.methods.verifyOTP`, keyed by its `message`. -/
inductive OtpResult where
  | noOTP            -- 'No OTP found'
  | expired          -- 'OTP has expired'
  | tooManyAttempts  -- 'Too many attempts. Please request a new OTP'
  | invalidOTP       -- 'Invalid OTP'
  | verified         -- success: 'Phone number verified successfully'
deriving DecidableEq, Repr

/-- Embeds `customerSchema.methods.verifyOTP(inputOTP)` from `src/unnamed/part_000`
lines 117–140, as a state transformer.  `now` is the instant `new Date()`
observed at the expiry comparison.  The guard `!this.otp || !this.otp.code`
is modelled by the sub-record being absent or its `code` being the empty
string (the only falsy JS string). -/
def verifyOTP (c : CustomerOtpState) (inputOTP : String) (now : Int) :
    CustomerOtpState × OtpResult :=
  match c.otp with
  | none => (c, .noOTP)
  | some o =>
    if o.code = "" then (c, .noOTP)
    else if o.expiresAt < now then (c, .expired)
    else if 3 ≤ o.attempts then (c, .tooManyAttempts)
    else if o.code ≠ inputOTP then
      ({ c with otp := some { o with attempts := o.attempts + 1 } }, .invalidOTP)
    else
      ({ otp := none, isPhoneVerified := true }, .verified)

/-! ## Phone normalizer (`utils/phoneValidator.js`, i.e. `src/unnamed/part_003`)

Phone numbers are embedded as `List Char` (JS strings); the empty list is
the only falsy string. -/

/-- Character class kept by `phoneNumber.replace(/[^\d+]/g, '')`:
digits and `+`. -/
def keptByCleanRegex (c : Char) : Bool :=
  c.isDigit || c = '+'

/-- The JS `\s` class (ASCII whitespace plus the Unicode space separators
recognised by ECMAScript regexes). -/
def jsWhitespace (c : Char) : Bool :=
  c = ' ' || c = '\t' || c = '\n' || c = '\r' || c = '\x0b' || c = '\x0c' ||
  c = ' ' || c = ' ' || (' ' ≤ c && c ≤ ' ') ||
  c = ' ' || c = ' ' || c = ' ' || c = ' ' ||
  c = '　' || c = '﻿'

/-- Character class `[\d\s\-\(\)]` of the `INTERNATIONAL` pattern. -/
def intlClassChar (c : Char) : Bool :=
  c.isDigit || jsWhitespace c || c = '-' || c = '(' || c = ')'

/-- The test `this.patterns.INTERNATIONAL.test(s)` for `/^\+?[\d\s\-\(\)]{10,}$/`
(`src/unnamed/part_003` line 8).  `+` is not in the character class, so the
optional `\+?` consumes a leading `+` exactly when one is present. -/
def intlPatternTest (s : List Char) : Bool :=
  match s with
  | '+' :: rest => rest.all intlClassChar && 10 ≤ rest.length
  | _ => s.all intlClassChar && 10 ≤ s.length

/-- The country-code defaulting branches of `cleanPhoneNumber`
(`src/unnamed/part_003` lines 20–40), applied to the already-filtered
string, in the source's order. -/
def cleanBranches (cleaned : List Char) : List Char :=
  if cleaned.head? = some '+' then cleaned               -- `cleaned.startsWith('+')`
  else if cleaned.head? = some '1' ∧ cleaned.length = 11 then '+' :: cleaned
  else if cleaned.length = 10 then '+' :: '1' :: cleaned
  else if 10 < cleaned.length then '+' :: cleaned
  else cleaned

/-- Embeds `cleanPhoneNumber(phoneNumber)` from `src/unnamed/part_003` lines 14–41:
strip everything but digits and `+` (`replace(/[^\d+]/g, '')`), then apply
the country-code defaulting branches. -/
def cleanPhoneNumber (s : List Char) : List Char :=
  if s = [] then []                                      -- `if (!phoneNumber) return ''`
  else cleanBranches (s.filter keptByCleanRegex)

/-- Embeds `isValidPhoneNumber(phoneNumber)` from `src/unnamed/part_003`
lines 44–51: re-clean, then test the `INTERNATIONAL` pattern and the
length bound. -/
def isValidPhoneNumber (s : List Char) : Bool :=
  if s = [] then false                                   -- `if (!phoneNumber) return false`
  else intlPatternTest (cleanPhoneNumber s) &&
    10 ≤ (cleanPhoneNumber s).length

/-- Embeds `normalizePhoneNumber(phoneNumber)` from `src/unnamed/part_003`
lines 83–93.  `none` covers both the `null` return for a falsy input and
the thrown `Invalid phone number format` error. -/
def normalizePhoneNumber (s : List Char) : Option (List Char) :=
  if s = [] then none
  else if isValidPhoneNumber (cleanPhoneNumber s) then some (cleanPhoneNumber s)
  else none

/-! ## Data model: visits and redemptions -/

/-- A stored Visit document (`models/Visit.js`), restricted to the fields
the claims read. -/
structure Visit where
  customer : Nat
  business : Nat
  pointsEarned : Int
  visitDate : Int
deriving DecidableEq, Repr

/-- A stored Redemption document (`models/Redemption.js`, second part of
`src/models/Reward.js`). -/
structure Redemption where
  customer : Nat
  business : Nat
  reward : Nat
  pointsUsed : Int
  status : RStatus
  redemptionCode : String
  expiresAt : Int
  usedAt : Option Int
  usedBy : Option Nat
deriving DecidableEq, Repr

/-! ## Ledger aggregation (`controllers/customerController.js`) -/

/-- Sum of `pointsEarned` over the Visits matching (customer, business):
the `$match` + `$group`/`$sum` stages used by `getPointsBalance`,
`getRewards` and `redeemReward`. -/
def visitSum (visits : List Visit) (cid bid : Nat) : Int :=
  ((visits.filter (fun v => v.customer = cid ∧ v.business = bid)).map
    (fun v => v.pointsEarned)).sum

/-- Sum of `pointsUsed` over the Redemptions matching (customer, business)
with no status restriction: the redemption aggregation of
`getPointsBalance` (`customerController.js` lines 179–188) groups all of
the customer's redemptions by business. -/
def redSumAll (reds : List Redemption) (cid bid : Nat) : Int :=
  ((reds.filter (fun r => r.customer = cid ∧ r.business = bid)).map
    (fun r => r.pointsUsed)).sum

/-- Count of the Redemptions matching (customer, business). -/
def redCountAll (reds : List Redemption) (cid bid : Nat) : Nat :=
  (reds.filter (fun r => r.customer = cid ∧ r.business = bid)).length

/-- Modelled from the spec: the subtracted sum of the specification's
ledger formula — `pointsUsed` over the matching Redemptions whose status
is in {pending, confirmed, used}.  Stated only to compare the code's
aggregation against the spec's formula. -/
def spentSumSpec (reds : List Redemption) (cid bid : Nat) : Int :=
  ((reds.filter (fun r => r.customer = cid ∧ r.business = bid ∧
      (r.status = .pending ∨ r.status = .confirmed ∨ r.status = .used))).map
    (fun r => r.pointsUsed)).sum

/-- The distinct business ids of a customer's visits, in first-appearance
order: the `$group` key set of the visit aggregation. -/
def businessesOf (visits : List Visit) (cid : Nat) : List Nat :=
  (((visits.filter (fun v => v.customer = cid)).map (fun v => v.business))).dedup

/-- One group of the visit aggregation of `getPointsBalance`
(`customerController.js` lines 141–176). -/
structure VisitAgg where
  business : Nat
  totalPoints : Int
  totalVisits : Nat
deriving DecidableEq, Repr

/-- One group of the redemption aggregation of `getPointsBalance`
(`customerController.js` lines 179–188). -/
structure RedAgg where
  business : Nat
  totalPointsUsed : Int
  totalRedemptions : Nat
deriving DecidableEq, Repr

/-- The visit aggregation: one group per distinct business among the
customer's visits, with the summed points. -/
def visitAggregate (visits : List Visit) (cid : Nat) : List VisitAgg :=
  (businessesOf visits cid).map (fun bid =>
    { business := bid,
      totalPoints := visitSum visits cid bid,
      totalVisits := (visits.filter
        (fun v => v.customer = cid ∧ v.business = bid)).length })

/-- The distinct business ids of a customer's redemptions. -/
def redBusinessesOf (reds : List Redemption) (cid : Nat) : List Nat :=
  (((reds.filter (fun r => r.customer = cid)).map (fun r => r.business))).dedup

/-- The redemption aggregation: one group per distinct business among the
customer's redemptions; note the absence of any status filter. -/
def redemptionAggregate (reds : List Redemption) (cid : Nat) : List RedAgg :=
  (redBusinessesOf reds cid).map (fun bid =>
    { business := bid,
      totalPointsUsed := redSumAll reds cid bid,
      totalRedemptions := redCountAll reds cid bid })

/-- One entry of the response of `getPointsBalance`. -/
structure BalanceEntry where
  business : Nat
  totalPoints : Int
  pointsUsed : Int
  availablePoints : Int
  totalRedemptions : Nat
deriving DecidableEq, Repr

/-- The per-entry combine step of `getPointsBalance`
(`customerController.js` lines 191–202): look up the redemption group of
the same business (`redemptionsData.find(...)`), default the used points
to 0 when there is none, and derive `availablePoints`. -/
def combineBalance (reds : List Redemption) (cid : Nat) (b : VisitAgg) :
    BalanceEntry :=
  match (redemptionAggregate reds cid).find?
      (fun r => r.business = b.business) with
  | some ragg =>
    { business := b.business, totalPoints := b.totalPoints,
      pointsUsed := ragg.totalPointsUsed,
      availablePoints := b.totalPoints - ragg.totalPointsUsed,
      totalRedemptions := ragg.totalRedemptions }
  | none =>
    { business := b.business, totalPoints := b.totalPoints,
      pointsUsed := 0,
      availablePoints := b.totalPoints - 0,
      totalRedemptions := 0 }

/-- Embeds `getPointsBalance` (`customerController.js` lines 136–225): run both
aggregations and combine them entry-wise.  The response's `$sort` stages
only reorder entries and are omitted. -/
def getPointsBalance (visits : List Visit) (reds : List Redemption)
    (cid : Nat) : List BalanceEntry :=
  (visitAggregate visits cid).map (combineBalance reds cid)

/-! ## Reward eligibility (`models/Reward.js`, first part) -/

/-- A stored Reward document, restricted to the fields the evaluator
reads. -/
structure Reward where
  business : Nat
  pointsRequired : Int
  isActive : Bool
  maxRedemptionsPerCustomer : Option Nat
  maxTotalRedemptions : Option Nat
  validFrom : Option Int
  validUntil : Option Int
  availableDays : List String
  availableTimeStart : Option String
  availableTimeEnd : Option String
  totalRedemptions : Nat
deriving DecidableEq, Repr

/-- The check `now < this.validFrom` guarded by the truthiness of `validFrom`. -/
def beforeValidFrom (rw : Reward) (now : Int) : Bool :=
  match rw.validFrom with
  | some f => decide (now < f)
  | none => false

/-- The check `now > this.validUntil` guarded by the truthiness of `validUntil`. -/
def afterValidUntil (rw : Reward) (now : Int) : Bool :=
  match rw.validUntil with
  | some u => decide (u < now)
  | none => false

/-- The check `this.maxTotalRedemptions && this.totalRedemptions >= this.maxTotalRedemptions`. -/
def maxTotalReached (rw : Reward) : Bool :=
  match rw.maxTotalRedemptions with
  | some m => decide (m ≤ rw.totalRedemptions)
  | none => false

/-- The `isCurrentlyValid` virtual (`Reward.js` lines 112–128). -/
def isCurrentlyValid (rw : Reward) (now : Int) : Bool :=
  if !rw.isActive then false
  else if beforeValidFrom rw now then false
  else if afterValidUntil rw now then false
  else if maxTotalReached rw then false
  else true

/-- Count of this customer's redemptions against this reward
(`Redemption.countDocuments({customer, reward})`, `Reward.js` 137–140). -/
def countCustomerRedemptions (reds : List Redemption) (cid rid : Nat) : Nat :=
  (reds.filter (fun r => r.customer = cid ∧ r.reward = rid)).length

/-- The check `this.maxRedemptionsPerCustomer && customerRedemptions >= limit`. -/
def perCustomerLimitReached (rw : Reward) (reds : List Redemption)
    (cid rid : Nat) : Bool :=
  match rw.maxRedemptionsPerCustomer with
  | some m => decide (m ≤ countCustomerRedemptions reds cid rid)
  | none => false

/-- Long `en-US` weekday names, indexed with 0 = Sunday (out-of-range
indexes never arise: `dayOfWeekUTC` lands in 0–6). -/
def longWeekdayName (d : Nat) : String :=
  match d with
  | 0 => "Sunday" | 1 => "Monday" | 2 => "Tuesday" | 3 => "Wednesday"
  | 4 => "Thursday" | 5 => "Friday" | 6 => "Saturday" | _ => "Sunday"

/-- Short `en-US` weekday names. -/
def shortWeekdayName (d : Nat) : String :=
  match d with
  | 0 => "Sun" | 1 => "Mon" | 2 => "Tue" | 3 => "Wed"
  | 4 => "Thu" | 5 => "Fri" | 6 => "Sat" | _ => "Sun"

/-- Narrow `en-US` weekday names. -/
def narrowWeekdayName (d : Nat) : String :=
  match d with
  | 0 => "S" | 1 => "M" | 2 => "T" | 3 => "W"
  | 4 => "T" | 5 => "F" | 6 => "S" | _ => "S"

/-- Weekday of an epoch-millisecond instant in the evaluator's reference
timezone (UTC): day 0 (1970-01-01) was a Thursday, so index 4, with
0 = Sunday. -/
def dayOfWeekUTC (now : Int) : Nat :=
  ((now.fdiv 86400000 + 4).emod 7).toNat

/-- Embeds `date.toLocaleDateString('en-US', { weekday: w })`, restricted to the
weekday component.  Per ECMA-402 (ToDateTimeOptions / GetOption) the
`weekday` option admits exactly the values `"narrow"`, `"short"` and
`"long"`; any other value — in particular the `'lowercase'` the source
passes — makes the `Intl.DateTimeFormat` constructor throw a
`RangeError`, which the embedding returns as `.error`. -/
def toLocaleDateStringWeekday (w : String) (day : Nat) : Except String String :=
  if w = "narrow" then .ok (narrowWeekdayName day)
  else if w = "short" then .ok (shortWeekdayName day)
  else if w = "long" then .ok (longWeekdayName day)
  else .error "RangeError: Value out of range for options property weekday"

/-- Zero-padded two-digit rendering used for `HH:MM`. -/
def pad2 (n : Nat) : String :=
  if n < 10 then "0" ++ toString n else toString n

/-- Embeds `now.toTimeString().slice(0, 5)`: the current `HH:MM` in the
evaluator's reference timezone (UTC). -/
def currentHHMM (now : Int) : String :=
  pad2 ((now.fdiv 3600000).emod 24).toNat ++ ":" ++
    pad2 ((now.fdiv 60000).emod 60).toNat

/-- The time-restriction check of `isAvailableForCustomer` (`Reward.js`
lines 156–163), reached after the day check. -/
def timeRestrictionCheck (rw : Reward) (now : Int) : Bool :=
  match rw.availableTimeStart, rw.availableTimeEnd with
  | some s, some e =>
    if currentHHMM now < s ∨ e < currentHHMM now then false else true
  | _, _ => true

/-- Embeds `rewardSchema.methods.isAvailableForCustomer` (`Reward.js` lines
131–166).  The day-restriction branch evaluates
`new Date().toLocaleDateString('en-US', { weekday: 'lowercase' })`;
a thrown `RangeError` propagates as `.error` (the caller's `catch` turns
it into a 500 response). -/
def isAvailableForCustomer (rw : Reward) (rid cid : Nat)
    (reds : List Redemption) (now : Int) : Except String Bool :=
  if !isCurrentlyValid rw now then .ok false
  else if perCustomerLimitReached rw reds cid rid then .ok false
  else if rw.availableDays ≠ [] then
    match toLocaleDateStringWeekday "lowercase" (dayOfWeekUTC now) with
    | .error e => .error e
    | .ok today =>
      if !(rw.availableDays.contains today) then .ok false
      else .ok (timeRestrictionCheck rw now)
  else .ok (timeRestrictionCheck rw now)

/-! ## Redemption lifecycle (`models/Redemption.js` and
`src/unnamed/part_001`) -/

/-- The alphabet of `generateRedemptionCode`: uppercase letters and
digits. -/
def codeChars : List Char := "ABCDEFGHIJKLMNOPQRSTUVWXYZ0123456789".data

theorem codeChars_length : codeChars.length = 36 := rfl

/-- Embeds `generateRedemptionCode` (`Reward.js` lines 358–365): 8 independent
draws from the 36-character alphabet; `draws i` models the value of
`Math.floor(Math.random() * chars.length)` on the i-th iteration. -/
def generateRedemptionCode (draws : Nat → Fin 36) : String :=
  String.mk ((List.range 8).map (fun i =>
    codeChars.get (Fin.cast codeChars_length.symm (draws i))))

/-- The three cached counters the redemption post-save hook targets. -/
structure Counters where
  rewardTotalRedemptions : Nat
  businessTotalRedemptions : Nat
  customerTotalRedemptions : Nat
deriving DecidableEq, Repr

/-- Embeds `redemptionSchema.post('save')` (`Reward.js` lines 330–355): the
`$inc` updates on the three counters, guarded by `doc.isNew`. -/
def redemptionPostSave (isNew : Bool) (cnt : Counters) : Counters :=
  if isNew then
    { rewardTotalRedemptions := cnt.rewardTotalRedemptions + 1,
      businessTotalRedemptions := cnt.businessTotalRedemptions + 1,
      customerTotalRedemptions := cnt.customerTotalRedemptions + 1 }
  else cnt

/-- A Redemption document as constructed by the controller, before the
pre-save hook fills the generated fields. -/
structure NewRedemption where
  customer : Nat
  business : Nat
  reward : Nat
  pointsUsed : Int
  status : RStatus
  redemptionCode : Option String
  expiresAt : Option Int
deriving DecidableEq, Repr

/-- Embeds `redemptionSchema.pre('save')` (`Reward.js` lines 313–327) on a new
document: generate the code if it is unset (or the empty string, the only
falsy string) and default `expiresAt` to now + 30 days. -/
def preSaveRedemption (d : NewRedemption) (draws : Nat → Fin 36)
    (now : Int) : Redemption :=
  { customer := d.customer, business := d.business, reward := d.reward,
    pointsUsed := d.pointsUsed, status := d.status,
    redemptionCode :=
      match d.redemptionCode with
      | some c => if c = "" then generateRedemptionCode draws else c
      | none => generateRedemptionCode draws,
    expiresAt :=
      match d.expiresAt with
      | some t => t
      | none => now + 30 * 24 * 60 * 60 * 1000,
    usedAt := none, usedBy := none }

/-- The persistent state a redemption save touches: the set of stored
redemption codes (backing the unique index) and the cached counters. -/
structure SaveEnv where
  codes : List String
  counters : Counters
deriving DecidableEq, Repr

/-- The storage layer's unique-index check on `redemptionCode`: a single
insert attempt, refused with a duplicate-key error when the code is
already stored. -/
def insertRedemption (codes : List String) (doc : Redemption) :
    Except String (List String) :=
  if doc.redemptionCode ∈ codes then
    .error "E11000 duplicate key error: redemptionCode"
  else .ok (doc.redemptionCode :: codes)

/-- Embeds `redemption.save()` on a newly constructed document: the pre-save
hook, one insert attempt (there is no retry loop anywhere in the source),
then the post-save hook.  Mongoose resets the document's `isNew` flag to
`false` once the write has completed and before `post('save')` hooks run,
so the hook observes `isNew = false`. -/
def saveNewRedemption (env : SaveEnv) (d : NewRedemption)
    (draws : Nat → Fin 36) (now : Int) :
    Except String (SaveEnv × Redemption) :=
  match insertRedemption env.codes (preSaveRedemption d draws now) with
  | .error e => .error e
  | .ok codes =>
    .ok ({ codes := codes,
           counters := redemptionPostSave false env.counters },
         preSaveRedemption d draws now)

/-- Embeds `redemptionSchema.methods.isValid` (`Reward.js` lines 368–372). -/
def redemptionIsValid (r : Redemption) (now : Int) : Bool :=
  r.status = .confirmed && decide (now < r.expiresAt) && r.usedAt = none

/-- Embeds `redemptionSchema.methods.markAsUsed` (`Reward.js` lines 375–393):
guard on `isValid`, transition to `used`, stamp `usedAt`/`usedBy`, and
save (a save of an existing document, so `isNew` is `false` in the
post-save hook). -/
def markAsUsed (r : Redemption) (usedBy : Nat) (now : Int)
    (cnt : Counters) : Except String (Redemption × Counters) :=
  if !redemptionIsValid r now then .error "Redemption is not valid for use"
  else
    .ok ({ r with
            status := .used, usedAt := some now, usedBy := some usedBy },
         redemptionPostSave false cnt)

/-- The `redemptionSchema.statics.expireOldRedemptions` match condition:
`status ∈ {pending, confirmed}` and `expiresAt < now`. -/
def sweepMatches (now : Int) (r : Redemption) : Bool :=
  (r.status = .pending || r.status = .confirmed) && decide (r.expiresAt < now)

/-- Embeds `expireOldRedemptions` (`Reward.js` lines 458–470): one `updateMany`
setting `status := expired` on every matching record, returning
`modifiedCount`. -/
def expireOldRedemptions (now : Int) (reds : List Redemption) :
    List Redemption × Nat :=
  (reds.map (fun r =>
      if sweepMatches now r then { r with status := .expired } else r),
   (reds.filter (sweepMatches now)).length)

/-- Outcome of the `redeemReward` controller, keyed by its HTTP
responses. -/
inductive RedeemResult where
  | notFound                                  -- 404 'Reward not found'
  | notActive                                 -- 400 'Reward is not active'
  | insufficientPoints (required available : Int)  -- 400 'Insufficient points'
  | notAvailable                              -- 400 'not available for redemption'
  | serverError (msg : String)                -- 500 'Error redeeming reward'
  | success (r : Redemption)                  -- 201 'Reward redeemed successfully'
deriving DecidableEq, Repr

/-- Embeds `Reward.findById` over an id-keyed store. -/
def findReward (rewards : List (Nat × Reward)) (rid : Nat) : Option Reward :=
  (rewards.find? (fun p => p.1 = rid)).map (fun p => p.2)

/-- Embeds `redeemReward` (`src/unnamed/part_001` lines 249–341).  The
sufficient-points check (lines 271–297) compares the *visit total* —
the sum of `pointsEarned` over the customer's visits at the reward's
business — against `pointsRequired`; no redemption is subtracted from
that total before the comparison. -/
def redeemReward (rewards : List (Nat × Reward)) (visits : List Visit)
    (reds : List Redemption) (env : SaveEnv) (cid rid : Nat) (now : Int)
    (draws : Nat → Fin 36) : RedeemResult :=
  match findReward rewards rid with
  | none => .notFound
  | some rw =>
    if !rw.isActive then .notActive
    else if visitSum visits cid rw.business < rw.pointsRequired then
      .insufficientPoints rw.pointsRequired (visitSum visits cid rw.business)
    else
      match isAvailableForCustomer rw rid cid reds now with
      | .error e => .serverError e
      | .ok false => .notAvailable
      | .ok true =>
        match saveNewRedemption env
            { customer := cid, business := rw.business, reward := rid,
              pointsUsed := rw.pointsRequired, status := .confirmed,
              redemptionCode := none, expiresAt := none } draws now with
        | .error e => .serverError e
        | .ok (_, saved) => .success saved

/-! ## Visit creation and update (`models/Visit.js`,
`controllers/visitController.js`) -/

/-- The slice of a Business document the visit pre-save hook reads.
JS numbers are embedded as rationals (`pointsMultiplier` may be
fractional, e.g. 0.5). -/
structure Business where
  pointsPerVisit : ℚ
deriving DecidableEq, Repr

/-- An in-memory Visit document; `pointsEarned` is unset until the
pre-save hook computes it. -/
structure VisitDoc where
  customer : Nat
  business : Nat
  pointsEarned : Option Int
  pointsMultiplier : ℚ
deriving DecidableEq, Repr

/-- Embeds `visitSchema.pre('save')` (`Visit.js` lines 88–113) on a document of
a known business: on a new document whose `pointsEarned` is still falsy,
set `pointsEarned = Math.floor(pointsPerVisit * pointsMultiplier)`. -/
def visitPreSave (isNew : Bool) (biz : Business) (v : VisitDoc) : VisitDoc :=
  if isNew then
    if v.pointsEarned = none ∨ v.pointsEarned = some 0 then
      { v with pointsEarned := some ⌊biz.pointsPerVisit * v.pointsMultiplier⌋ }
    else v
  else v

/-- Embeds `pointsMultiplier || 1` in `recordVisit`
(`visitController.js` line 55): `none` (absent) and 0 are falsy. -/
def effectiveMultiplier (m : Option ℚ) : ℚ :=
  match m with
  | none => 1
  | some q => if q = 0 then 1 else q

/-- Embeds `recordVisit` (`visitController.js` lines 7–80), reduced to the
construction and save of the Visit document: the controller never sets
`pointsEarned`, so the pre-save hook computes it. -/
def recordVisit (biz : Business) (cid bid : Nat) (m : Option ℚ) : VisitDoc :=
  visitPreSave true biz
    { customer := cid, business := bid, pointsEarned := none,
      pointsMultiplier := effectiveMultiplier m }

/-- The update body of the `updateVisit` endpoint, one `Option` per
updatable field (`none` = field absent from `req.body`). -/
structure VisitUpdateBody where
  customer : Option Nat
  business : Option Nat
  visitDate : Option Int
  pointsEarned : Option Int
  serviceType : Option String
  notes : Option String
  isValidated : Option Bool
deriving DecidableEq, Repr

/-- The four `delete updates.*` statements of `updateVisit`
(`visitController.js` lines 184–188). -/
def sanitizeVisitUpdates (u : VisitUpdateBody) : VisitUpdateBody :=
  { u with
    customer := none, business := none, visitDate := none,
    pointsEarned := none }

/-- A stored Visit as the update endpoint sees it. -/
structure StoredVisit where
  customer : Nat
  business : Nat
  visitDate : Int
  pointsEarned : Int
  serviceType : Option String
  notes : Option String
  isValidated : Bool
deriving DecidableEq, Repr

/-- Embeds the `findOneAndUpdate` field application (no save middleware runs). -/
def applyVisitUpdate (u : VisitUpdateBody) (v : StoredVisit) : StoredVisit :=
  { customer := u.customer.getD v.customer,
    business := u.business.getD v.business,
    visitDate := u.visitDate.getD v.visitDate,
    pointsEarned := u.pointsEarned.getD v.pointsEarned,
    serviceType := match u.serviceType with
      | some s => some s
      | none => v.serviceType,
    notes := match u.notes with
      | some s => some s
      | none => v.notes,
    isValidated := u.isValidated.getD v.isValidated }

/-- Embeds `updateVisit` (`visitController.js` lines 179–219), reduced to its
effect on the stored document. -/
def updateVisit (u : VisitUpdateBody) (v : StoredVisit) : StoredVisit :=
  applyVisitUpdate (sanitizeVisitUpdates u) v

/-! ## Concrete stores used by the counterexample and divergence
theorems -/

/-- One visit worth 100 points by customer 7 at business 0. -/
def exVisits : List Visit :=
  [{ customer := 7, business := 0, pointsEarned := 100, visitDate := 0 }]

/-- A cancelled redemption of 30 points by customer 7 at business 0. -/
def exCancelledReds : List Redemption :=
  [{ customer := 7, business := 0, reward := 1, pointsUsed := 30,
     status := .cancelled, redemptionCode := "CANCEL01", expiresAt := 500,
     usedAt := none, usedBy := none }]

/-- A reward of business 0 requiring exactly the 100 points that customer
7 has earned; no day/time/limit restrictions. -/
def exReward : Reward :=
  { business := 0, pointsRequired := 100, isActive := true,
    maxRedemptionsPerCustomer := none, maxTotalRedemptions := none,
    validFrom := some 0, validUntil := none, availableDays := [],
    availableTimeStart := none, availableTimeEnd := none,
    totalRedemptions := 1 }

/-- A confirmed redemption by customer 7 that already consumed the full
100 points of `exReward`. -/
def exConfirmedReds : List Redemption :=
  [{ customer := 7, business := 0, reward := 1, pointsUsed := 100,
     status := .confirmed, redemptionCode := "CODE0001", expiresAt := 10 ^ 12,
     usedAt := none, usedBy := none }]

/-- Persistent state holding the one stored redemption code. -/
def exEnv : SaveEnv :=
  { codes := ["CODE0001"],
    counters :=
      { rewardTotalRedemptions := 1,
        businessTotalRedemptions := 1, customerTotalRedemptions := 1 } }

/-- A deterministic stand-in for `Math.random`: every draw is 0, so the
generated code is `"AAAAAAAA"`. -/
def exDraws : Nat → Fin 36 := fun _ => ⟨0, by omega⟩

/-- The monday-only reward of the eligibility scenario. -/
def exMondayReward : Reward :=
  { business := 0, pointsRequired := 100, isActive := true,
    maxRedemptionsPerCustomer := none, maxTotalRedemptions := none,
    validFrom := some 0, validUntil := none, availableDays := ["monday"],
    availableTimeStart := none, availableTimeEnd := none,
    totalRedemptions := 0 }

/-- An instant falling on a Monday (1970-01-05). -/
def exMonday : Int := 4 * 86400000

/-- An instant falling on a Tuesday (1970-01-06). -/
def exTuesday : Int := 5 * 86400000

/-- Persistent state for the code-collision scenario: the store already
holds `"AAAAAAAA"`, exactly the code the deterministic draws produce. -/
def exCollisionEnv : SaveEnv :=
  { codes := ["AAAAAAAA"],
    counters :=
      { rewardTotalRedemptions := 0,
        businessTotalRedemptions := 0, customerTotalRedemptions := 0 } }

/-- The redemption document the controller constructs for customer 7
redeeming reward 1 (100 points) at business 0. -/
def exNewRedemption : NewRedemption :=
  { customer := 7, business := 0, reward := 1, pointsUsed := 100,
    status := .confirmed, redemptionCode := none, expiresAt := none }

/-! ## Theorems -/

/-- Searching a list for an element equal to `bid` finds `bid` exactly
when it is present. -/
theorem find?_eq_self (l : List Nat) (bid : Nat) (h : bid ∈ l) :
    l.find? (fun x => x = bid) = some bid := by
  induction l with
  | nil => cases h
  | cons a t ih =>
    by_cases ha : a = bid
    · subst ha
      simp [List.find?]
    · rcases List.mem_cons.mp h with h1 | h1
      · exact absurd h1.symm ha
      · simpa [List.find?, ha] using ih h1

/-- The redemption aggregation groups exactly the businesses at which the
customer has a redemption, and the entry found for such a business holds
the status-blind sums. -/
theorem redemptionAggregate_find (reds : List Redemption) (cid bid : Nat) :
    (redemptionAggregate reds cid).find? (fun r => r.business = bid) =
      if bid ∈ redBusinessesOf reds cid then
        some { business := bid, totalPointsUsed := redSumAll reds cid bid,
               totalRedemptions := redCountAll reds cid bid }
      else none := by
  unfold redemptionAggregate
  rw [List.find?_map]
  have hcomp : ((fun r : RedAgg => decide (r.business = bid)) ∘ fun b =>
      ({ business := b, totalPointsUsed := redSumAll reds cid b,
         totalRedemptions := redCountAll reds cid b } : RedAgg)) =
      (fun x => decide (x = bid)) := rfl
  rw [hcomp]
  split
  · rename_i hmem
    rw [find?_eq_self _ _ hmem]
    rfl
  · rename_i hmem
    rw [Option.map_eq_none', List.find?_eq_none]
    intro x hx
    simp only [decide_eq_true_eq]
    intro hxe
    exact hmem (hxe ▸ hx)

/-- If the customer has no redemption group at a business, then no
redemption matches that (customer, business) pair, and the status-blind
sum is 0. -/
theorem redSumAll_eq_zero_of_not_mem (reds : List Redemption) (cid bid : Nat)
    (h : bid ∉ redBusinessesOf reds cid) : redSumAll reds cid bid = 0 := by
  unfold redSumAll
  have hnil : reds.filter (fun r => r.customer = cid ∧ r.business = bid) = [] := by
    rw [List.filter_eq_nil_iff]
    intro r hr hmatch
    simp only [decide_eq_true_eq] at hmatch
    apply h
    unfold redBusinessesOf
    rw [List.mem_dedup, List.mem_map]
    exact ⟨r, List.mem_filter.mpr ⟨hr, by simp [hmatch.1]⟩, hmatch.2⟩
  rw [hnil]
  rfl

/-- The defaulting branches only prepend `+` and `1`, so every character
of their output that was not in the input is kept by the clean filter. -/
theorem cleanBranches_mem (l : List Char) :
    ∀ c ∈ cleanBranches l, c ∈ l ∨ keptByCleanRegex c = true := by
  intro c hc
  unfold cleanBranches at hc
  split at hc
  · exact Or.inl hc
  · split at hc
    · rcases List.mem_cons.mp hc with h | h
      · right; simp [h, keptByCleanRegex]
      · exact Or.inl h
    · split at hc
      · rcases List.mem_cons.mp hc with h | h
        · right; simp [h, keptByCleanRegex]
        · rcases List.mem_cons.mp h with h1 | h1
          · right; simp [h1, keptByCleanRegex]
          · exact Or.inl h1
      · split at hc
        · rcases List.mem_cons.mp hc with h | h
          · right; simp [h, keptByCleanRegex]
          · exact Or.inl h
        · exact Or.inl hc

/-- Every character of a cleaned phone number is a digit or `+`. -/
theorem cleanPhoneNumber_all_kept (s : List Char) :
    ∀ c ∈ cleanPhoneNumber s, keptByCleanRegex c = true := by
  intro c hc
  unfold cleanPhoneNumber at hc
  split at hc
  · simp at hc
  · rcases cleanBranches_mem _ c hc with h | h
    · exact List.of_mem_filter h
    · exact h

/-- Re-filtering a cleaned phone number changes nothing. -/
theorem filter_cleanPhoneNumber (s : List Char) :
    (cleanPhoneNumber s).filter keptByCleanRegex = cleanPhoneNumber s :=
  List.filter_eq_self.mpr (cleanPhoneNumber_all_kept s)

/-- The branch output either carries a leading `+` or is shorter than 10
characters (every defaulting branch prepends `+`). -/
theorem cleanBranches_head_or_short (l : List Char) :
    (cleanBranches l).head? = some '+' ∨ (cleanBranches l).length < 10 := by
  unfold cleanBranches
  split
  · left; assumption
  · split
    · left; rfl
    · split
      · left; rfl
      · split
        · left; rfl
        · right; omega

/-- A cleaned phone number either carries a leading `+` or is shorter
than 10 characters. -/
theorem cleanPhoneNumber_head_or_short (s : List Char) :
    (cleanPhoneNumber s).head? = some '+' ∨ (cleanPhoneNumber s).length < 10 := by
  unfold cleanPhoneNumber
  split
  · right; simp
  · exact cleanBranches_head_or_short _

/-- The branches fix any list that starts with `+` or is shorter than 10
characters. -/
theorem cleanBranches_fixed (r : List Char)
    (hr : r.head? = some '+' ∨ r.length < 10) :
    cleanBranches r = r := by
  unfold cleanBranches
  rcases hr with h | h
  · simp [h]
  · split
    · rfl
    · split
      · exfalso; omega
      · split
        · exfalso; omega
        · split
          · exfalso; omega
          · rfl

/-- Unfolding equation of `cleanPhoneNumber` on a non-empty input. -/
theorem cleanPhoneNumber_ne_nil (s : List Char) (h : s ≠ []) :
    cleanPhoneNumber s = cleanBranches (s.filter keptByCleanRegex) := by
  unfold cleanPhoneNumber
  simp [h]

/-- The function `cleanPhoneNumber` is idempotent: its output survives its own filter
and is fixed by the defaulting branches. -/
theorem cleanPhoneNumber_idem (s : List Char) :
    cleanPhoneNumber (cleanPhoneNumber s) = cleanPhoneNumber s := by
  by_cases h : cleanPhoneNumber s = []
  · rw [h]
    simp [cleanPhoneNumber]
  · rw [cleanPhoneNumber_ne_nil _ h, filter_cleanPhoneNumber s]
    exact cleanBranches_fixed _ (cleanPhoneNumber_head_or_short s)

/-- A phone number accepted by `isValidPhoneNumber` is non-empty. -/
theorem isValidPhoneNumber_ne_nil (r : List Char)
    (h : isValidPhoneNumber r = true) : r ≠ [] := by
  intro he
  subst he
  simp [isValidPhoneNumber] at h

/-- What a successful `normalizePhoneNumber` call returns: the cleaned
input, which passed validation. -/
theorem normalizePhoneNumber_eq_some (s r : List Char)
    (h : normalizePhoneNumber s = some r) :
    r = cleanPhoneNumber s ∧ isValidPhoneNumber (cleanPhoneNumber s) = true := by
  unfold normalizePhoneNumber at h
  split at h
  · cases h
  · split at h
    · cases h
      exact ⟨rfl, by assumption⟩
    · cases h

/-- C9: phone normalization is idempotent — whenever normalization
succeeds, normalizing the result returns the result unchanged — and the
inputs `"(555) 123-4567"`, `"555-123-4567"` and `"5551234567"`, which
differ only in punctuation and spacing, all normalize to
`"+15551234567"`. -/
theorem C9_phone_normalization_idempotent :
    (∀ s r : List Char, normalizePhoneNumber s = some r →
      normalizePhoneNumber r = some r) ∧
    normalizePhoneNumber "(555) 123-4567".data = some "+15551234567".data ∧
    normalizePhoneNumber "555-123-4567".data = some "+15551234567".data ∧
    normalizePhoneNumber "5551234567".data = some "+15551234567".data := by
  refine ⟨?_, by decide, by decide, by decide⟩
  intro s r h
  obtain ⟨hr, hv⟩ := normalizePhoneNumber_eq_some s r h
  subst hr
  have hne := isValidPhoneNumber_ne_nil _ hv
  unfold normalizePhoneNumber
  simp only [hne, if_false, cleanPhoneNumber_idem, hv, if_true]

/-- Witness for C9: the idempotence clause applied to the concrete input
`"5551234567"`, whose normalization succeeds with `"+15551234567"`. -/
theorem C9_phone_normalization_idempotent_witness :
    normalizePhoneNumber "+15551234567".data = some "+15551234567".data :=
  C9_phone_normalization_idempotent.1 "5551234567".data "+15551234567".data
    (by decide)

/-- C6: OTP verification fails with NoOTP when no OTP is present;
otherwise fails with Expired when now > expiresAt; otherwise fails with
TooManyAttempts when attempts ≥ 3, before the code comparison (so even a
matching code fails then); otherwise on mismatch increments attempts and
fails with InvalidOTP; and on match clears the OTP record entirely and
marks the customer phone-verified.  (An OTP sub-record whose `code` is the
empty string is treated as absent by the guard `!this.otp.code`.) -/
theorem C6_verify_otp_state_machine (c : CustomerOtpState) (inp : String)
    (now : Int) (o : OtpRec) :
    (c.otp = none → verifyOTP c inp now = (c, .noOTP)) ∧
    (c.otp = some o → o.code ≠ "" → o.expiresAt < now →
      verifyOTP c inp now = (c, .expired)) ∧
    (c.otp = some o → o.code ≠ "" → ¬ o.expiresAt < now → 3 ≤ o.attempts →
      verifyOTP c inp now = (c, .tooManyAttempts)) ∧
    (c.otp = some o → o.code ≠ "" → ¬ o.expiresAt < now → o.attempts < 3 →
      o.code ≠ inp →
      verifyOTP c inp now =
        ({ c with otp := some { o with attempts := o.attempts + 1 } },
          .invalidOTP)) ∧
    (c.otp = some o → o.code ≠ "" → ¬ o.expiresAt < now → o.attempts < 3 →
      o.code = inp →
      verifyOTP c inp now = ({ otp := none, isPhoneVerified := true }, .verified)) := by
  refine ⟨fun h => ?_, fun h h1 h2 => ?_, fun h h1 h2 h3 => ?_,
    fun h h1 h2 h3 h4 => ?_, fun h h1 h2 h3 h4 => ?_⟩
  · simp [verifyOTP, h]
  · simp [verifyOTP, h, h1, h2]
  · simp [verifyOTP, h, h1, h2, h3]
  · have h3' : ¬ 3 ≤ o.attempts := by omega
    simp [verifyOTP, h, h1, h2, h3', h4]
  · have h3' : ¬ 3 ≤ o.attempts := by omega
    have h1' : ¬ inp = "" := h4 ▸ h1
    simp [verifyOTP, h, h1', h2, h3', h4]

/-- Witness for C6: a fresh OTP `"123456"` (0 attempts, not expired)
checked against the wrong code `"000000"` fails with InvalidOTP and
attempts becomes 1. -/
theorem C6_verify_otp_state_machine_witness :
    verifyOTP
        { otp := some { code := "123456", expiresAt := 100, attempts := 0 },
          isPhoneVerified := false } "000000" 50 =
      ({ otp := some { code := "123456", expiresAt := 100, attempts := 1 },
          isPhoneVerified := false }, .invalidOTP) :=
  (C6_verify_otp_state_machine
      { otp := some { code := "123456", expiresAt := 100, attempts := 0 },
        isPhoneVerified := false } "000000" 50
      { code := "123456", expiresAt := 100, attempts := 0 }).2.2.2.1
    rfl (by decide) (by decide) (by decide) (by decide)

/-- C10: on every verification failure other than a code mismatch the
customer state (OTP sub-record and phone-verified flag) is exactly
unchanged; the attempt counter moves only on the mismatch path, where the
state change is exactly `attempts + 1`. -/
theorem C10_verify_otp_failure_frame (c : CustomerOtpState) (inp : String)
    (now : Int) :
    ((verifyOTP c inp now).2 = .noOTP ∨ (verifyOTP c inp now).2 = .expired ∨
      (verifyOTP c inp now).2 = .tooManyAttempts →
      (verifyOTP c inp now).1 = c) ∧
    ((verifyOTP c inp now).2 = .invalidOTP →
      ∃ o, c.otp = some o ∧
        (verifyOTP c inp now).1 =
          { c with otp := some { o with attempts := o.attempts + 1 } }) := by
  unfold verifyOTP
  cases ho : c.otp with
  | none => simp
  | some o =>
    by_cases h1 : o.code = ""
    · simp [h1]
    · by_cases h2 : o.expiresAt < now
      · simp [h1, h2]
      · by_cases h3 : 3 ≤ o.attempts
        · simp [h1, h2, h3]
        · by_cases h4 : o.code = inp
          · have h1' : ¬ inp = "" := h4 ▸ h1
            simp [h1', h2, h3, h4]
          · constructor
            · intro hres
              simp [h1, h2, h3, h4] at hres
            · intro _
              refine ⟨o, rfl, ?_⟩
              simp [h1, h2, h3, h4]

/-- Witness for C10: verifying against an expired OTP leaves the customer
state untouched. -/
theorem C10_verify_otp_failure_frame_witness :
    (verifyOTP
        { otp := some { code := "123456", expiresAt := 100, attempts := 1 },
          isPhoneVerified := false } "123456" 200).1 =
      { otp := some { code := "123456", expiresAt := 100, attempts := 1 },
        isPhoneVerified := false } :=
  (C10_verify_otp_failure_frame
      { otp := some { code := "123456", expiresAt := 100, attempts := 1 },
        isPhoneVerified := false } "123456" 200).1
    (Or.inr (Or.inl (by decide)))

end Loyalty

namespace Loyalty

/-- The combine step never changes the business key. -/
theorem combineBalance_business (reds : List Redemption) (cid : Nat)
    (b : VisitAgg) : (combineBalance reds cid b).business = b.business := by
  unfold combineBalance
  cases (redemptionAggregate reds cid).find?
      (fun r => r.business = b.business) <;> rfl

/-- The combine step derives `availablePoints` as the visit total minus
the status-blind redemption sum of the same business. -/
theorem combineBalance_available (reds : List Redemption) (cid : Nat)
    (b : VisitAgg) :
    (combineBalance reds cid b).availablePoints =
      b.totalPoints - redSumAll reds cid b.business := by
  unfold combineBalance
  rw [redemptionAggregate_find reds cid b.business]
  by_cases hmem : b.business ∈ redBusinessesOf reds cid
  · simp only [hmem, if_true]
  · simp only [hmem, if_false]
    rw [redSumAll_eq_zero_of_not_mem reds cid _ hmem]

/-- C1 counterexample: customer 7 has one 100-point visit at business 0
and one *cancelled* 30-point redemption there.  The claim's formula (only
pending/confirmed/used redemptions subtract) gives 100, but the
points-balance operation returns an available balance of 70: the
cancelled redemption still subtracts. -/
theorem C1_counterexample_cancelled_not_released :
    (getPointsBalance exVisits exCancelledReds 7).map
        (fun e => e.availablePoints) = [70] ∧
    visitSum exVisits 7 0 - spentSumSpec exCancelledReds 7 0 = 100 := by
  constructor
  · rfl
  · rfl

/-- C1 (amended): every entry of the points-balance response satisfies
`availablePoints = visitSum − redSumAll`, where the subtracted sum ranges
over ALL of the customer's redemptions at that business regardless of
status — cancelled/expired redemptions do not release their points — and
there is an entry for every business the customer has visited. -/
theorem C1_available_points_subtracts_all_statuses
    (visits : List Visit) (reds : List Redemption) (cid : Nat) :
    (∀ e ∈ getPointsBalance visits reds cid,
      e.availablePoints =
        visitSum visits cid e.business - redSumAll reds cid e.business) ∧
    (∀ bid ∈ businessesOf visits cid,
      ∃ e ∈ getPointsBalance visits reds cid, e.business = bid) := by
  constructor
  · intro e he
    unfold getPointsBalance at he
    rw [List.mem_map] at he
    obtain ⟨b, hb, rfl⟩ := he
    rw [combineBalance_available, combineBalance_business]
    unfold visitAggregate at hb
    rw [List.mem_map] at hb
    obtain ⟨bid, _, rfl⟩ := hb
    rfl
  · intro bid hbid
    have hmem : ({ business := bid,
                   totalPoints := visitSum visits cid bid,
                   totalVisits := (visits.filter (fun v =>
                     v.customer = cid ∧ v.business = bid)).length } :
                  VisitAgg) ∈
        visitAggregate visits cid := List.mem_map_of_mem _ hbid
    exact ⟨_, List.mem_map_of_mem _ hmem, combineBalance_business _ _ _⟩

/-- Witness for C1 (amended): in the cancelled-redemption store, the
single returned entry's available balance indeed equals
visit sum − status-blind redemption sum (100 − 30 = 70). -/
theorem C1_available_points_subtracts_all_statuses_witness :
    ({ business := 0, totalPoints := 100, pointsUsed := 30,
       availablePoints := 70, totalRedemptions := 1 } :
        BalanceEntry).availablePoints =
      visitSum exVisits 7 0 - redSumAll exCancelledReds 7 0 :=
  (C1_available_points_subtracts_all_statuses exVisits exCancelledReds 7).1
    { business := 0, totalPoints := 100, pointsUsed := 30,
      availablePoints := 70, totalRedemptions := 1 } (by decide)

end Loyalty

namespace Loyalty

/-- C2 divergence: customer 7's visits at business 0 total exactly the
100 points `exReward` requires, and a confirmed redemption of that reward
(100 points) already exists, so the specification's ledger balance is 0.
A second `redeemReward` call nevertheless succeeds and creates a second
confirmed redemption: the sufficient-points check compares only the visit
total and never subtracts redeemed points, overdrawing the ledger instead
of failing with the insufficient-points error. -/
theorem C2_second_redemption_not_refused :
    redeemReward [(1, exReward)] exVisits exConfirmedReds exEnv 7 1 1000
        exDraws =
      .success
        { customer := 7, business := 0, reward := 1, pointsUsed := 100,
          status := .confirmed, redemptionCode := "AAAAAAAA",
          expiresAt := 1000 + 2592000000, usedAt := none, usedBy := none } ∧
    visitSum exVisits 7 0 - spentSumSpec exConfirmedReds 7 0 = 0 := by
  constructor
  · decide
  · decide

/-- C3 divergence: creating a Redemption leaves all three cached
`totalRedemptions` counters unchanged — the post-save hook's
`doc.isNew` guard is always false by the time the hook runs — and (as the
claim also states) `markAsUsed` does not change them either. -/
theorem C3_counters_never_incremented (env : SaveEnv) (d : NewRedemption)
    (draws : Nat → Fin 36) (now : Int) :
    (∀ env2 r, saveNewRedemption env d draws now = .ok (env2, r) →
      env2.counters = env.counters) ∧
    (∀ r usedBy2 cnt r2 cnt2,
      markAsUsed r usedBy2 now cnt = .ok (r2, cnt2) → cnt2 = cnt) := by
  constructor
  · intro env2 r h
    unfold saveNewRedemption at h
    cases hins : insertRedemption env.codes (preSaveRedemption d draws now) with
    | error e => rw [hins] at h; cases h
    | ok codes => rw [hins] at h; cases h; rfl
  · intro r usedBy2 cnt r2 cnt2 h
    unfold markAsUsed at h
    split at h
    · cases h
    · cases h; rfl

/-- Witness for C3: concretely creating customer 7's redemption of reward
1 succeeds and returns the counters of `exEnv` unchanged. -/
theorem C3_counters_never_incremented_witness :
    ∃ env2 r, saveNewRedemption exEnv exNewRedemption exDraws 1000 =
      .ok (env2, r) ∧ env2.counters = exEnv.counters := by
  refine ⟨{ codes := ["AAAAAAAA", "CODE0001"], counters := exEnv.counters },
    preSaveRedemption exNewRedemption exDraws 1000, by rfl, ?_⟩
  exact (C3_counters_never_incremented exEnv exNewRedemption exDraws
    1000).1 _ _ (by rfl)

/-- Reduction of the weekday formatter at the option value the source
passes: `'lowercase'` is not an admissible `weekday` value, so the
formatter throws. -/
theorem toLocale_lowercase (d : Nat) :
    toLocaleDateStringWeekday "lowercase" d =
      .error "RangeError: Value out of range for options property weekday" := rfl

/-- C4 divergence: any reward with a non-empty `availableDays` list that
actually reaches the day check (it is currently valid and the
per-customer limit is not hit) makes the evaluation throw the RangeError
— on a Monday as much as on a Tuesday — so a monday-only reward is never
reported eligible; the caller's catch turns the throw into a 500. -/
theorem C4_day_restriction_throws_rangeerror (rwd : Reward) (rid cid : Nat)
    (reds : List Redemption) (now : Int)
    (hdays : rwd.availableDays ≠ [])
    (hvalid : isCurrentlyValid rwd now = true)
    (hlimit : perCustomerLimitReached rwd reds cid rid = false) :
    isAvailableForCustomer rwd rid cid reds now =
      .error "RangeError: Value out of range for options property weekday" := by
  unfold isAvailableForCustomer
  simp [hvalid, hlimit, hdays, toLocale_lowercase]

/-- Witness for C4: the monday-only reward, evaluated on a Monday
(1970-01-05) with no redemptions on record, errors instead of being
eligible. -/
theorem C4_day_restriction_throws_rangeerror_witness :
    isAvailableForCustomer exMondayReward 1 7 [] exMonday =
      .error "RangeError: Value out of range for options property weekday" :=
  C4_day_restriction_throws_rangeerror exMondayReward 1 7 [] exMonday
    (by decide) (by decide) (by decide)

/-- C5 counterexample: with `"AAAAAAAA"` already stored and the draws
regenerating exactly that code, the redemption request is answered with
the storage layer's duplicate-key failure as a 500 server error — the
collision is surfaced to the requesting customer, not retried. -/
theorem C5_collision_surfaced_to_customer :
    redeemReward [(1, exReward)] exVisits [] exCollisionEnv 7 1 1000
        exDraws =
      .serverError "E11000 duplicate key error: redemptionCode" := by
  decide

/-- C5 (amended): the pre-save hook assigns one freshly generated
8-character code over the uppercase-alphanumeric alphabet, and the insert
is attempted exactly once: a collision against the unique constraint is
returned as the duplicate-key error (no regenerate-and-retry cycle
exists), while a non-colliding code is stored as generated. -/
theorem C5_code_single_attempt_no_retry (draws : Nat → Fin 36)
    (env : SaveEnv) (d : NewRedemption) (now : Int)
    (hnone : d.redemptionCode = none) :
    (generateRedemptionCode draws).length = 8 ∧
    (∀ c ∈ (generateRedemptionCode draws).data, c ∈ codeChars) ∧
    (preSaveRedemption d draws now).redemptionCode =
      generateRedemptionCode draws ∧
    (generateRedemptionCode draws ∈ env.codes →
      saveNewRedemption env d draws now =
        .error "E11000 duplicate key error: redemptionCode") ∧
    (generateRedemptionCode draws ∉ env.codes →
      saveNewRedemption env d draws now =
        .ok ({ codes := generateRedemptionCode draws :: env.codes,
               counters := env.counters },
             preSaveRedemption d draws now)) := by
  have hcode : (preSaveRedemption d draws now).redemptionCode =
      generateRedemptionCode draws := by
    unfold preSaveRedemption
    rw [hnone]
  refine ⟨?_, ?_, hcode, ?_, ?_⟩
  · unfold generateRedemptionCode
    simp [String.length]
  · intro c hc
    unfold generateRedemptionCode at hc
    simp only [String.data] at hc
    rw [List.mem_map] at hc
    obtain ⟨i, _, rfl⟩ := hc
    exact List.get_mem _ _ _
  · intro hmem
    unfold saveNewRedemption insertRedemption
    rw [hcode]
    simp [hmem]
  · intro hmem
    unfold saveNewRedemption insertRedemption
    rw [hcode]
    simp [hmem, redemptionPostSave]

/-- Witness for C5 (amended): at the concrete colliding store, the single
insert attempt returns the duplicate-key error. -/
theorem C5_code_single_attempt_no_retry_witness :
    saveNewRedemption exCollisionEnv exNewRedemption exDraws 1000 =
      .error "E11000 duplicate key error: redemptionCode" :=
  (C5_code_single_attempt_no_retry exDraws exCollisionEnv exNewRedemption
      1000 rfl).2.2.2.1 (by decide)

end Loyalty

namespace Loyalty

/-- A list map that fixes every element is the identity. -/
theorem map_eq_self_of {α : Type} (l : List α) (f : α → α)
    (h : ∀ x ∈ l, f x = x) : l.map f = l := by
  induction l with
  | nil => rfl
  | cons a t ih =>
    simp only [List.map_cons]
    rw [h a (by simp), ih (fun x hx => h x (by simp [hx]))]

/-- No record of a sweep's output still matches the sweep condition:
matched records now carry status `expired`, unmatched ones were already
non-matching. -/
theorem sweep_output_unmatched (now : Int) (reds : List Redemption) :
    ∀ r ∈ (expireOldRedemptions now reds).1, sweepMatches now r = false := by
  intro r hr
  unfold expireOldRedemptions at hr
  rw [List.mem_map] at hr
  obtain ⟨a, _, rfl⟩ := hr
  by_cases ha : sweepMatches now a = true
  · simp only [ha, if_true]
    simp [sweepMatches]
  · simp only [ha, if_false]
    simpa using ha

/-- C7: one sweep call returns the number of pending/confirmed records
whose expiry lies strictly before `now`, transitions exactly those to
`expired`, leaves every other record untouched, and a second sweep at the
same instant transitions zero records and changes nothing (idempotence). -/
theorem C7_expire_sweep (now : Int) (reds : List Redemption) :
    (expireOldRedemptions now reds).2 = reds.countP (sweepMatches now) ∧
    (∀ (i : Nat) r, reds[i]? = some r → sweepMatches now r = true →
      (expireOldRedemptions now reds).1[i]? =
        some { r with status := .expired }) ∧
    (∀ (i : Nat) r, reds[i]? = some r → sweepMatches now r = false →
      (expireOldRedemptions now reds).1[i]? = some r) ∧
    expireOldRedemptions now (expireOldRedemptions now reds).1 =
      ((expireOldRedemptions now reds).1, 0) := by
  refine ⟨?_, ?_, ?_, ?_⟩
  · unfold expireOldRedemptions
    rw [List.countP_eq_length_filter]
  · intro i r hi hm
    unfold expireOldRedemptions
    rw [List.getElem?_map, hi]
    simp [hm]
  · intro i r hi hm
    unfold expireOldRedemptions
    rw [List.getElem?_map, hi]
    simp [hm]
  · have h1 : (expireOldRedemptions now reds).1.map
        (fun r => if sweepMatches now r then
          { r with status := RStatus.expired } else r) =
        (expireOldRedemptions now reds).1 :=
      map_eq_self_of _ _ (fun x hx => by
        simp [sweep_output_unmatched now reds x hx])
    have h2 : (expireOldRedemptions now reds).1.filter (sweepMatches now) = [] :=
      List.filter_eq_nil_iff.mpr (fun a ha => by
        simp [sweep_output_unmatched now reds a ha])
    show ((expireOldRedemptions now reds).1.map _,
      ((expireOldRedemptions now reds).1.filter (sweepMatches now)).length) = _
    rw [h1, h2]
    rfl

/-- Witness for C7: a single confirmed redemption expired in the past is
transitioned by one sweep (the matched branch of the theorem at index 0). -/
theorem C7_expire_sweep_witness :
    (expireOldRedemptions (2 * 10 ^ 12) exConfirmedReds).1[0]? =
      some { customer := 7, business := 0, reward := 1, pointsUsed := 100,
             status := .expired, redemptionCode := "CODE0001",
             expiresAt := 10 ^ 12, usedAt := none, usedBy := none } :=
  (C7_expire_sweep (2 * 10 ^ 12) exConfirmedReds).2.1 0
    { customer := 7, business := 0, reward := 1, pointsUsed := 100,
      status := .confirmed, redemptionCode := "CODE0001",
      expiresAt := 10 ^ 12, usedAt := none, usedBy := none }
    (by decide) (by decide)

/-- C8: a visit recorded through the visit-recording flow gets
`pointsEarned = ⌊pointsPerVisit * pointsMultiplier⌋` computed at creation
time by the pre-save hook, and the update endpoint strips `pointsEarned`
from the request body before applying it, so no update through it ever
changes `pointsEarned`. -/
theorem C8_points_earned_set_once_never_updated (biz : Business)
    (cid bid : Nat) (m : Option ℚ) (u : VisitUpdateBody) (v : StoredVisit) :
    (recordVisit biz cid bid m).pointsEarned =
      some ⌊biz.pointsPerVisit * (recordVisit biz cid bid m).pointsMultiplier⌋ ∧
    (updateVisit u v).pointsEarned = v.pointsEarned := by
  constructor
  · unfold recordVisit visitPreSave
    simp
  · unfold updateVisit sanitizeVisitUpdates applyVisitUpdate
    rfl

end Loyalty
